import Mathlib

/-!
Shallow embedding of the simulation core of `src/venv/FlappyBird.py`
(classes `Passaro`, `Cano`, `Chao`, `Game`), together with theorems checking
the natural-language specification against it.

Modelling decisions:
* Python floats become `ℚ` (every value the physics reaches here is a small
  dyadic rational, on which double arithmetic is exact).
* `random.randrange(lo, hi)` becomes an explicit seed-indexed draw over the
  half-open range `[lo, hi)`, returning `none` for an empty range (Python
  raises `ValueError` there).
* Asset dimensions (image widths/heights read from the png files) are kept
  abstract in an `Assets` record of integer dimensions.
* Pixel masks (`pygame.mask`) become finite lists of opaque-pixel
  coordinates; `Mask.overlap m outra off` mirrors `m.overlap(outra, off)`.
* The collision test of `Game.atualizar_estado` is a parameter
  `colidir : Cano → Passaro → Bool`, since it reads external image data.
* Python objects compared by identity (`list.remove`) are modelled by giving
  each `Passaro` an `id` field and erasing the first element with that id.
-/

/- Batteries marks the rational-number operations `@[irreducible]`, which
blocks definitional evaluation of concrete states.  Restore the default
reducibility locally so witnesses can be checked by `decide`. -/
attribute [local semireducible] Rat.add Rat.mul Rat.sub Rat.inv Rat.ofScientific

set_option maxRecDepth 8000

/-- The `Config` dataclass of the source, with its default constants. -/
structure Config where
  TELA_LARGURA : ℤ := 500
  TELA_ALTURA : ℤ := 800
  FPS : ℕ := 30
  IMPULSO_PULO : ℚ := -(21/2)
  GRAVIDADE_TERMO : ℚ := 3/2
  DESLOCAMENTO_MAX : ℚ := 16
  ROTACAO_MAXIMA : ℤ := 25
  VELOCIDADE_ROTACAO : ℤ := 20
  TEMPO_ANIMACAO : ℕ := 5
  ANGULO_MIN_ASA : ℤ := -80
  DISTANCIA_CANO : ℤ := 200
  VELOCIDADE_CANO : ℤ := 5
  CANO_ALTURA_MIN : ℤ := 50
  CANO_ALTURA_MAX : ℤ := 450
  VELOCIDADE_CHAO : ℤ := 5
  deriving DecidableEq

/-- The module-level `CFG = Config()` instance. -/
def CFG : Config := {}

/-- Dimensions of the loaded images (external asset data, kept abstract). -/
structure Assets where
  pipeHeight : ℤ
  pipeWidth : ℤ
  birdHeight : ℤ
  baseWidth : ℤ
  deriving DecidableEq

/-- The physics/animation state of class `Passaro`.  The pygame surface
field `imagem` is not representable; its height is taken from `Assets`.
The `id` field stands for Python object identity. -/
structure Passaro where
  id : ℕ
  x : ℤ
  y : ℚ
  angulo : ℤ
  velocidade : ℚ
  altura_inicio_pulo : ℚ
  tempo : ℕ
  contagem_imagem : ℕ
  deriving DecidableEq

/-- `Passaro.__init__(x, y)`. -/
def Passaro.init (x : ℤ) (y : ℚ) : Passaro :=
  ⟨0, x, y, 0, 0, y, 0, 0⟩

/-- `Passaro.pular`. -/
def Passaro.pular (cfg : Config) (p : Passaro) : Passaro :=
  { p with velocidade := cfg.IMPULSO_PULO, tempo := 0, altura_inicio_pulo := p.y }

/-- The displacement computation of `Passaro.mover`, as a function of the
velocity and the (already incremented) tick counter: the raw quadratic
formula, then the two sequential guards of the source (clamp at
`DESLOCAMENTO_MAX`, then subtract 2 when negative). -/
def deslocamento (cfg : Config) (v : ℚ) (t : ℕ) : ℚ :=
  let d := cfg.GRAVIDADE_TERMO * (t : ℚ) ^ 2 + v * (t : ℚ)
  let d := if d > cfg.DESLOCAMENTO_MAX then cfg.DESLOCAMENTO_MAX else d
  if d < 0 then d - 2 else d

/-- `Passaro.mover`: increment `tempo`, apply the displacement to `y`, then
update the rotation angle exactly as lines 134-140 of the source do. -/
def Passaro.mover (cfg : Config) (p : Passaro) : Passaro :=
  let tempo := p.tempo + 1
  let d := deslocamento cfg p.velocidade tempo
  let y := p.y + d
  let angulo :=
    if d < 0 ∨ y < p.altura_inicio_pulo + 50 then
      if p.angulo < cfg.ROTACAO_MAXIMA then cfg.ROTACAO_MAXIMA else p.angulo
    else
      if p.angulo > cfg.ANGULO_MIN_ASA then p.angulo - cfg.VELOCIDADE_ROTACAO else p.angulo
  { p with tempo := tempo, y := y, angulo := angulo }

/-- The externally triggered mutations of a body: an impulse (`pular`) or
one physics tick (`mover`). -/
inductive AcaoPassaro where
  | pular
  | mover
  deriving DecidableEq

/-- Apply one action to a body. -/
def Passaro.executar (cfg : Config) (p : Passaro) : AcaoPassaro → Passaro
  | AcaoPassaro.pular => Passaro.pular cfg p
  | AcaoPassaro.mover => Passaro.mover cfg p

/-- Apply a sequence of impulses and physics ticks to a body. -/
def Passaro.executarSeq (cfg : Config) (p : Passaro) (acoes : List AcaoPassaro) : Passaro :=
  acoes.foldl (Passaro.executar cfg) p

/-- A pixel mask: the list of opaque pixel coordinates of a silhouette. -/
abbrev Mask := List (ℤ × ℤ)

/-- `m.overlap(outra, off)` of pygame: some opaque pixel of `m` at `(x, y)`
coincides with an opaque pixel of `outra` placed at offset `off`. -/
def Mask.overlap (m outra : Mask) (off : ℤ × ℤ) : Bool :=
  m.any fun p => decide ((p.1 - off.1, p.2 - off.2) ∈ outra)

/-- The collision oracle at explicit positions: the offset passed to
`Mask.overlap` is the componentwise difference of the two origins, as in
`Cano.colidir` (obstacle position minus body position). -/
def overlaps (mA : Mask) (posA : ℤ × ℤ) (mB : Mask) (posB : ℤ × ℤ) : Bool :=
  Mask.overlap mA mB (posB.1 - posA.1, posB.2 - posA.2)

/-- Model of Python `random.randrange(lo, hi)`: a uniform draw over the
half-open range `[lo, hi)` indexed by a seed, `none` when the range is
empty (Python raises `ValueError` then). -/
def randrange (lo hi : ℤ) (seed : ℕ) : Option ℤ :=
  if lo < hi then some (lo + (seed : ℤ) % (hi - lo)) else none

/-- State of class `Cano` (the obstacle pair).  The two mask surfaces are
external; `passou` is the scoring flag. -/
structure Cano where
  x : ℤ
  altura : ℤ
  pos_topo : ℤ
  pos_base : ℤ
  passou : Bool
  deriving DecidableEq

/-- `Cano.definir_altura`: draw `altura`, derive `pos_topo` and `pos_base`. -/
def Cano.definir_altura (cfg : Config) (A : Assets) (c : Cano) (seed : ℕ) : Option Cano :=
  (randrange cfg.CANO_ALTURA_MIN cfg.CANO_ALTURA_MAX seed).map fun a =>
    { c with altura := a, pos_topo := a - A.pipeHeight, pos_base := a + cfg.DISTANCIA_CANO }

/-- `Cano.__init__(x)`: fields zeroed, `passou = False`, then
`definir_altura` runs once. -/
def Cano.init (cfg : Config) (A : Assets) (x : ℤ) (seed : ℕ) : Option Cano :=
  Cano.definir_altura cfg A ⟨x, 0, 0, 0, false⟩ seed

/-- `Cano.mover`. -/
def Cano.mover (cfg : Config) (c : Cano) : Cano :=
  { c with x := c.x - cfg.VELOCIDADE_CANO }

/-- The mutation `cano.passou = True` performed by `Game.atualizar_estado`. -/
def Cano.marcarPassou (c : Cano) : Cano :=
  { c with passou := true }

/-- State of class `Chao`. -/
structure Chao where
  y : ℤ
  largura : ℤ
  x1 : ℤ
  x2 : ℤ
  deriving DecidableEq

/-- `Chao.__init__(y)`. -/
def Chao.init (A : Assets) (y : ℤ) : Chao :=
  ⟨y, A.baseWidth, 0, A.baseWidth⟩

/-- `Chao.mover`: both offsets shift left, then the two sequential wrap
checks (the second one reads the possibly already-wrapped `x1`). -/
def Chao.mover (cfg : Config) (ch : Chao) : Chao :=
  let x1 := ch.x1 - cfg.VELOCIDADE_CHAO
  let x2 := ch.x2 - cfg.VELOCIDADE_CHAO
  let x1 := if x1 + ch.largura < 0 then x2 + ch.largura else x1
  let x2 := if x2 + ch.largura < 0 then x1 + ch.largura else x2
  { ch with x1 := x1, x2 := x2 }

/-- The session state owned by class `Game` (window/clock/assets are
external). -/
structure Game where
  passaros : List Passaro
  chao : Chao
  canos : List Cano
  pontos : ℕ
  rodando : Bool
  deriving DecidableEq

/-- `Game.reset`: one body at (230, 350), ground at 730, one obstacle at
700, score zero, running. -/
def Game.reset (cfg : Config) (A : Assets) (seed : ℕ) : Option Game :=
  (Cano.init cfg A 700 seed).map fun c =>
    ⟨[Passaro.init 230 350], Chao.init A 730, [c], 0, true⟩

/-- `Game.__init__` builds the session state by calling `reset`. -/
def Game.init (cfg : Config) (A : Assets) (seed : ℕ) : Option Game :=
  Game.reset cfg A seed

/-- The input events relevant to `Game.processar_eventos`. -/
inductive Evento where
  | quit
  | keySpace
  | keyR
  | outro
  deriving DecidableEq

/-- `Game.processar_eventos`: fold over the pending event list.  `quit`
clears `rodando`, space applies the impulse to every body, `R` rebuilds the
state through `reset` (its random draw indexed by `seed`). -/
def processar_eventos (cfg : Config) (A : Assets) (seed : ℕ) :
    List Evento → Game → Option Game
  | [], g => some g
  | Evento.quit :: resto, g => processar_eventos cfg A seed resto { g with rodando := false }
  | Evento.keySpace :: resto, g =>
      processar_eventos cfg A seed resto
        { g with passaros := g.passaros.map (Passaro.pular cfg) }
  | Evento.keyR :: resto, _ => (Game.reset cfg A seed).bind (processar_eventos cfg A seed resto)
  | Evento.outro :: resto, g => processar_eventos cfg A seed resto g

/-- The inner loop of `Game.atualizar_estado` for one obstacle: iterate
over the snapshot `ps` of the body list, removing each colliding body from
the live list, and afterwards (even for a body just removed) firing the
`passou` transition when the body is beyond the obstacle. -/
def colisaoPassagem (colidir : Cano → Passaro → Bool) :
    List Passaro → List Passaro → Cano → Bool → List Passaro × Cano × Bool
  | [], passaros, cano, adicionar => (passaros, cano, adicionar)
  | p :: ps, passaros, cano, adicionar =>
      let passaros := if colidir cano p then passaros.eraseP (fun q => q.id == p.id) else passaros
      if !cano.passou && decide (p.x > cano.x) then
        colisaoPassagem colidir ps passaros (Cano.marcarPassou cano) true
      else
        colisaoPassagem colidir ps passaros cano adicionar

/-- The outer obstacle loop of `Game.atualizar_estado`: for each obstacle
run the inner loop, move the obstacle, and record whether it is fully
offscreen (the `remover` list of the source).  Returns the processed
obstacles paired with their reap flag, the surviving bodies, and the
`adicionar_cano` flag. -/
def processCanos (colidir : Cano → Passaro → Bool) (cfg : Config) (A : Assets) :
    List Cano → List Passaro → Bool → List (Cano × Bool) × List Passaro × Bool
  | [], passaros, adicionar => ([], passaros, adicionar)
  | cano :: resto, passaros, adicionar =>
      let r := colisaoPassagem colidir passaros passaros cano adicionar
      let movido := Cano.mover cfg r.2.1
      let reap := decide (movido.x + A.pipeWidth < 0)
      let s := processCanos colidir cfg A resto r.1 r.2.2
      ((movido, reap) :: s.1, s.2.1, s.2.2)

/-- The obstacle list after the per-tick processing, before reaping and
spawning (the source's obstacles as they stand after the `for cano` loop). -/
def procdCanos (cfg : Config) (A : Assets) (colidir : Cano → Passaro → Bool) (g : Game) :
    List Cano :=
  (processCanos colidir cfg A g.canos (g.passaros.map (Passaro.mover cfg)) false).1.map Prod.fst

/-- The ground/ceiling boundary filter of `Game.atualizar_estado`
(lines 331-334): drop a body whose lower edge is below the ground or whose
`y` is negative. -/
def filtrarChaoTeto (A : Assets) (chaoY : ℤ) (ps : List Passaro) : List Passaro :=
  ps.filter fun p => !(decide (p.y + (A.birdHeight : ℚ) > (chaoY : ℚ)) || decide (p.y < 0))

/-- Assemble the post-tick session state: boundary-filter the bodies and
clear `rodando` exactly when no body remains. -/
def montarEstado (A : Assets) (chao : Chao) (rodandoAntes : Bool)
    (passaros : List Passaro) (canos : List Cano) (pontos : ℕ) : Game :=
  let vivos := filtrarChaoTeto A chao.y passaros
  ⟨vivos, chao, canos, pontos, if vivos.isEmpty then false else rodandoAntes⟩

/-- `Game.atualizar_estado`: move bodies and ground, run the obstacle loop,
then (when `adicionar_cano` was set) add one point and append one new
obstacle at `TELA_LARGURA + 100`, drop reaped obstacles, boundary-check the
bodies and update `rodando`.  The new obstacle's random draw is indexed by
`seed`; `none` models the `ValueError` of an empty `randrange` range. -/
def atualizar_estado (cfg : Config) (A : Assets) (colidir : Cano → Passaro → Bool)
    (seed : ℕ) (g : Game) : Option Game :=
  let r := processCanos colidir cfg A g.canos (g.passaros.map (Passaro.mover cfg)) false
  let mantidos := (r.1.filter fun pr => !pr.2).map Prod.fst
  if r.2.2 then
    (Cano.init cfg A (cfg.TELA_LARGURA + 100) seed).map fun novo =>
      montarEstado A (Chao.mover cfg g.chao) g.rodando r.2.1 (mantidos ++ [novo]) (g.pontos + 1)
  else
    some (montarEstado A (Chao.mover cfg g.chao) g.rodando r.2.1 mantidos g.pontos)

/-- Number of obstacles whose `passou` flag is still false. -/
def unpassedCount (canos : List Cano) : ℕ :=
  canos.countP fun c => !c.passou

/-- Number of obstacles whose `passou` flag transitioned false→true between
two positionally paired obstacle lists. -/
def transCount (antes depois : List Cano) : ℕ :=
  (antes.zip depois).countP fun pr => !pr.1.passou && pr.2.passou

/-- The displacement rule as worded by the specification: ticks incremented
first, `quadraticCoefficient * ticks^2 + velocity * ticks`, clamp above at
the maximum constant, subtract the fixed penalty 2 when negative. -/
def deslocamentoSpec (cfg : Config) (v : ℚ) (t : ℕ) : ℚ :=
  let bruto := cfg.GRAVIDADE_TERMO * (t : ℚ) ^ 2 + v * (t : ℚ)
  let limitado := if bruto > cfg.DESLOCAMENTO_MAX then cfg.DESLOCAMENTO_MAX else bruto
  if limitado < 0 then limitado - 2 else limitado

/-! Concrete instances used by witnesses and counterexamples. -/

/-- A concrete choice of asset dimensions. -/
def assetsW : Assets := ⟨640, 104, 96, 672⟩

/-- Collision oracle that never reports contact. -/
def colidirNunca : Cano → Passaro → Bool := fun _ _ => false

/-- Collision oracle that always reports contact. -/
def colidirSempre : Cano → Passaro → Bool := fun _ _ => true

/-- The spawned body of `Game.reset`. -/
def passaroW : Passaro := ⟨0, 230, 350, 0, 0, 350, 0, 0⟩

/-- The obstacle `Game.reset` builds with seed 0 and `assetsW`. -/
def canoW : Cano := ⟨700, 50, -590, 250, false⟩

/-- The session state `Game.reset CFG assetsW 0` produces. -/
def gW : Game := ⟨[passaroW], ⟨730, 672, 0, 672⟩, [canoW], 0, true⟩

/-- `gW` after one tick with no collisions. -/
def gW1 : Game := ⟨[⟨0, 230, 703/2, 25, 0, 350, 1, 0⟩], ⟨730, 672, -5, 667⟩,
  [⟨695, 50, -590, 250, false⟩], 0, true⟩

/-- An unpassed obstacle already behind the body (for the same-tick
collision-then-pass scenario). -/
def canoX : Cano := ⟨100, 50, -590, 250, false⟩

/-- Session state with the body past `canoX`. -/
def gX : Game := ⟨[passaroW], ⟨730, 672, 0, 672⟩, [canoX], 0, true⟩

/-- `gX` after one tick under `colidirSempre`. -/
def gX1 : Game := ⟨[], ⟨730, 672, -5, 667⟩,
  [⟨95, 50, -590, 250, true⟩, ⟨600, 50, -590, 250, false⟩], 1, false⟩

/-- One impulse followed by 22 physics ticks: by tick 17 the body is more
than 50 below the impulse height, and the rotation then decays past the
minimum dive angle. -/
def caminhoMergulho : List AcaoPassaro :=
  AcaoPassaro.pular :: List.replicate 22 AcaoPassaro.mover

/-- An invalid configuration: obstacle min-height above max-height. -/
def cfgInvalida : Config := { CFG with CANO_ALTURA_MIN := 500 }

/-! Helper lemmas. -/

/-- Characterisation of a successful `Cano.init`: the altura lands in the
half-open configured range and the edges are derived from it. -/
lemma Cano.init_spec {cfg : Config} {A : Assets} {x : ℤ} {seed : ℕ} {c : Cano}
    (h : Cano.init cfg A x seed = some c) :
    c.x = x ∧ c.passou = false ∧
    cfg.CANO_ALTURA_MIN ≤ c.altura ∧ c.altura < cfg.CANO_ALTURA_MAX ∧
    c.pos_topo = c.altura - A.pipeHeight ∧ c.pos_base = c.altura + cfg.DISTANCIA_CANO := by
  unfold Cano.init Cano.definir_altura randrange at h
  by_cases hlt : cfg.CANO_ALTURA_MIN < cfg.CANO_ALTURA_MAX
  · rw [if_pos hlt] at h
    simp only [Option.map_some', Option.some.injEq] at h
    subst h
    have hpos : (0 : ℤ) < cfg.CANO_ALTURA_MAX - cfg.CANO_ALTURA_MIN := by omega
    have h1 : 0 ≤ (seed : ℤ) % (cfg.CANO_ALTURA_MAX - cfg.CANO_ALTURA_MIN) :=
      Int.emod_nonneg _ (by omega)
    have h2 : (seed : ℤ) % (cfg.CANO_ALTURA_MAX - cfg.CANO_ALTURA_MIN) <
        cfg.CANO_ALTURA_MAX - cfg.CANO_ALTURA_MIN := Int.emod_lt_of_pos _ hpos
    refine ⟨rfl, rfl, ?_, ?_, rfl, rfl⟩ <;> dsimp only <;> omega
  · rw [if_neg hlt] at h
    simp at h

/-- Rotation bounds are preserved by one impulse or physics tick: the angle
stays at most `ROTACAO_MAXIMA` and strictly above
`ANGULO_MIN_ASA - VELOCIDADE_ROTACAO`. -/
lemma executar_angulo_inv (p : Passaro) (a : AcaoPassaro)
    (h1 : CFG.ANGULO_MIN_ASA - CFG.VELOCIDADE_ROTACAO < p.angulo)
    (h2 : p.angulo ≤ CFG.ROTACAO_MAXIMA) :
    CFG.ANGULO_MIN_ASA - CFG.VELOCIDADE_ROTACAO < (Passaro.executar CFG p a).angulo ∧
    (Passaro.executar CFG p a).angulo ≤ CFG.ROTACAO_MAXIMA := by
  have hmin : CFG.ANGULO_MIN_ASA = -80 := rfl
  have hrot : CFG.VELOCIDADE_ROTACAO = 20 := rfl
  have hmax : CFG.ROTACAO_MAXIMA = 25 := rfl
  simp only [hmin, hrot, hmax] at h1 h2 ⊢
  cases a with
  | pular => exact ⟨h1, h2⟩
  | mover =>
      simp only [Passaro.executar, Passaro.mover, hmin, hrot, hmax]
      split_ifs <;> omega

/-- Displacement never exceeds a nonnegative `DESLOCAMENTO_MAX`. -/
lemma deslocamento_le (cfg : Config) (hM : 0 ≤ cfg.DESLOCAMENTO_MAX) (v : ℚ) (t : ℕ) :
    deslocamento cfg v t ≤ cfg.DESLOCAMENTO_MAX := by
  simp only [deslocamento]
  split_ifs <;> linarith

/-- One-step monotonicity of the clamped displacement at the concrete
configuration, once the quadratic term dominates the velocity. -/
lemma deslocamento_mono_step (v : ℚ) (t : ℕ)
    (h : |v| ≤ CFG.GRAVIDADE_TERMO * (t : ℚ)) :
    deslocamento CFG v t ≤ deslocamento CFG v (t + 1) := by
  have hv := abs_le.mp h
  have hg : CFG.GRAVIDADE_TERMO = 3/2 := rfl
  have h16 : CFG.DESLOCAMENTO_MAX = 16 := rfl
  rw [hg] at hv
  have ht : (0:ℚ) ≤ (t:ℚ) := Nat.cast_nonneg t
  have hraw : CFG.GRAVIDADE_TERMO * (t : ℚ) ^ 2 + v * (t : ℚ) ≤
      CFG.GRAVIDADE_TERMO * ((t + 1 : ℕ) : ℚ) ^ 2 + v * ((t + 1 : ℕ) : ℚ) := by
    rw [hg]
    push_cast
    nlinarith [hv.1, hv.2, ht]
  simp only [deslocamento, h16]
  split_ifs <;> linarith

/-- C7 witness inputs check out: `|−21/2| ≤ (3/2)·7`. -/
lemma c7_dom : |(-(21/2) : ℚ)| ≤ CFG.GRAVIDADE_TERMO * ((7 : ℕ) : ℚ) := by
  have hg : CFG.GRAVIDADE_TERMO = 3/2 := rfl
  rw [hg, abs_le]
  constructor <;> norm_num

/-- C2: one call of the physics update increments ticks-since-impulse by 1,
computes displacement by the quadratic formula on the incremented tick
count, clamps it above at the maximum-displacement constant, subtracts the
fixed penalty 2 when negative, and adds the result to the vertical
position.  `deslocamentoSpec` is the specification's wording of that rule;
`Passaro.mover` is the source's code. -/
theorem C2_mover_desloca (cfg : Config) (p : Passaro) :
    (Passaro.mover cfg p).tempo = p.tempo + 1 ∧
    (Passaro.mover cfg p).y = p.y + deslocamentoSpec cfg p.velocidade (p.tempo + 1) :=
  ⟨rfl, rfl⟩

/-- C3 counterexample: after one impulse and 22 ticks the rotation angle of
a body spawned at (230, 350) is −95, strictly below `ANGULO_MIN_ASA = −80`,
refuting the claimed clamping at the minimum dive angle. -/
theorem C3_counterexample :
    (Passaro.executarSeq CFG (Passaro.init 230 350) caminhoMergulho).angulo = -95 ∧
    (Passaro.executarSeq CFG (Passaro.init 230 350) caminhoMergulho).angulo <
      CFG.ANGULO_MIN_ASA := by
  constructor <;> decide

/-- C3 amended: over every sequence of physics updates and impulses the
rotation angle never exceeds `ROTACAO_MAXIMA = 25`, and never falls to or
below `ANGULO_MIN_ASA - VELOCIDADE_ROTACAO = -100`: the descent decrement
is applied whenever the angle is above `ANGULO_MIN_ASA`, so the angle can
overshoot the minimum dive angle by up to `VELOCIDADE_ROTACAO - 1`. -/
theorem C3_amended_angulo_limites (x : ℤ) (y : ℚ) (acoes : List AcaoPassaro) :
    CFG.ANGULO_MIN_ASA - CFG.VELOCIDADE_ROTACAO <
      (Passaro.executarSeq CFG (Passaro.init x y) acoes).angulo ∧
    (Passaro.executarSeq CFG (Passaro.init x y) acoes).angulo ≤ CFG.ROTACAO_MAXIMA := by
  have key : ∀ (as : List AcaoPassaro) (p : Passaro),
      CFG.ANGULO_MIN_ASA - CFG.VELOCIDADE_ROTACAO < p.angulo →
      p.angulo ≤ CFG.ROTACAO_MAXIMA →
      CFG.ANGULO_MIN_ASA - CFG.VELOCIDADE_ROTACAO <
        (Passaro.executarSeq CFG p as).angulo ∧
      (Passaro.executarSeq CFG p as).angulo ≤ CFG.ROTACAO_MAXIMA := by
    intro as
    induction as with
    | nil => intro p h1 h2; exact ⟨h1, h2⟩
    | cons a resto ih =>
        intro p h1 h2
        have hstep := executar_angulo_inv p a h1 h2
        exact ih _ hstep.1 hstep.2
  have h0 : (Passaro.init x y).angulo = 0 := rfl
  exact key acoes (Passaro.init x y) (by rw [h0]; decide) (by rw [h0]; decide)

/-- C4 counterexample: under no random seed does `definir_altura` produce
the upper endpoint `CANO_ALTURA_MAX = 450`; the draw of
`random.randrange(CANO_ALTURA_MIN, CANO_ALTURA_MAX)` is over a half-open
range, refuting the claimed inclusive range. -/
theorem C4_counterexample :
    ¬ ∃ (seed : ℕ) (c : Cano), Cano.init CFG assetsW 700 seed = some c ∧
      c.altura = CFG.CANO_ALTURA_MAX := by
  rintro ⟨seed, c, h, hmax⟩
  have := (Cano.init_spec h).2.2.2.1
  omega

/-- C4 amended: for every random seed, `definir_altura` draws the gap
center uniformly from the half-open range
`[CANO_ALTURA_MIN, CANO_ALTURA_MAX)`, the derived gap edges (bottom edge of
the top barrier, top edge of the bottom barrier) satisfy
topEdge < bottomEdge with difference exactly `DISTANCIA_CANO`, and the
obstacle's subsequent mutations (`mover`, the `passou` mark) never change
the gap placement. -/
theorem C4_amended_definir_altura (cfg : Config) (A : Assets) (x : ℤ) (seed : ℕ) (c : Cano)
    (h : Cano.init cfg A x seed = some c) :
    cfg.CANO_ALTURA_MIN ≤ c.altura ∧ c.altura < cfg.CANO_ALTURA_MAX ∧
    (0 < cfg.DISTANCIA_CANO → c.pos_topo + A.pipeHeight < c.pos_base) ∧
    c.pos_base - (c.pos_topo + A.pipeHeight) = cfg.DISTANCIA_CANO ∧
    (Cano.mover cfg c).altura = c.altura ∧
    (Cano.mover cfg c).pos_topo = c.pos_topo ∧
    (Cano.mover cfg c).pos_base = c.pos_base ∧
    (Cano.marcarPassou c).altura = c.altura ∧
    (Cano.marcarPassou c).pos_topo = c.pos_topo ∧
    (Cano.marcarPassou c).pos_base = c.pos_base := by
  obtain ⟨-, -, h3, h4, h5, h6⟩ := Cano.init_spec h
  exact ⟨h3, h4, by omega, by omega, rfl, rfl, rfl, rfl, rfl, rfl⟩

/-- C4 amended, witness at seed 0. -/
theorem C4_witness :
    Cano.init CFG assetsW 700 0 = some canoW ∧
    (CFG.CANO_ALTURA_MIN ≤ canoW.altura ∧ canoW.altura < CFG.CANO_ALTURA_MAX ∧
     (0 < CFG.DISTANCIA_CANO → canoW.pos_topo + assetsW.pipeHeight < canoW.pos_base) ∧
     canoW.pos_base - (canoW.pos_topo + assetsW.pipeHeight) = CFG.DISTANCIA_CANO ∧
     (Cano.mover CFG canoW).altura = canoW.altura ∧
     (Cano.mover CFG canoW).pos_topo = canoW.pos_topo ∧
     (Cano.mover CFG canoW).pos_base = canoW.pos_base ∧
     (Cano.marcarPassou canoW).altura = canoW.altura ∧
     (Cano.marcarPassou canoW).pos_topo = canoW.pos_topo ∧
     (Cano.marcarPassou canoW).pos_base = canoW.pos_base) :=
  ⟨by decide, C4_amended_definir_altura CFG assetsW 700 0 canoW (by decide)⟩

/-- C7: for every initial velocity `v` and tick count `t`, the clamped
displacement never exceeds `DESLOCAMENTO_MAX = 16`, and it is monotonically
non-decreasing in the tick count from any point where the quadratic term
dominates the velocity term (`|v| ≤ GRAVIDADE_TERMO · t`). -/
theorem C7_deslocamento_clamp_mono (v : ℚ) (t : ℕ) :
    deslocamento CFG v t ≤ CFG.DESLOCAMENTO_MAX ∧
    ∀ t' : ℕ, |v| ≤ CFG.GRAVIDADE_TERMO * (t : ℚ) → t ≤ t' →
      deslocamento CFG v t ≤ deslocamento CFG v t' := by
  refine ⟨deslocamento_le CFG (by norm_num [CFG]) v t, ?_⟩
  intro t' h hle
  induction t', hle using Nat.le_induction with
  | base => exact le_refl _
  | succ n hn ih =>
      refine le_trans ih (deslocamento_mono_step v n ?_)
      have hcast : (t : ℚ) ≤ (n : ℚ) := by exact_mod_cast hn
      have hg : CFG.GRAVIDADE_TERMO = 3/2 := rfl
      rw [hg] at h ⊢
      linarith

/-- C7 witness at `v = IMPULSO_PULO = −21/2`, `t = 7`, `t' = 9`. -/
theorem C7_witness :
    deslocamento CFG (-(21/2)) 7 ≤ CFG.DESLOCAMENTO_MAX ∧
    deslocamento CFG (-(21/2)) 7 ≤ deslocamento CFG (-(21/2)) 9 :=
  ⟨(C7_deslocamento_clamp_mono (-(21/2)) 7).1,
   (C7_deslocamento_clamp_mono (-(21/2)) 7).2 9 c7_dom (by norm_num)⟩

/-- C8: the pixel-mask collision test is symmetric: testing silhouette A at
position `posA` against silhouette B at position `posB` equals testing B
against A, the relative offset being negated by the swap. -/
theorem C8_overlaps_sym (mA mB : Mask) (pA pB : ℤ × ℤ) :
    overlaps mA pA mB pB = overlaps mB pB mA pA := by
  have hbool : ∀ a b : Bool, a = b ↔ ((a = true) ↔ (b = true)) := by decide
  unfold overlaps Mask.overlap
  rw [hbool]
  simp only [List.any_eq_true, decide_eq_true_eq]
  constructor
  · rintro ⟨⟨p1, p2⟩, hp, hmem⟩
    refine ⟨(p1 - (pB.1 - pA.1), p2 - (pB.2 - pA.2)), hmem, ?_⟩
    have he1 : p1 - (pB.1 - pA.1) - (pA.1 - pB.1) = p1 := by ring
    have he2 : p2 - (pB.2 - pA.2) - (pA.2 - pB.2) = p2 := by ring
    simpa [he1, he2] using hp
  · rintro ⟨⟨q1, q2⟩, hq, hmem⟩
    refine ⟨(q1 - (pA.1 - pB.1), q2 - (pA.2 - pB.2)), hmem, ?_⟩
    have he1 : q1 - (pA.1 - pB.1) - (pB.1 - pA.1) = q1 := by ring
    have he2 : q2 - (pA.2 - pB.2) - (pB.2 - pA.2) = q2 := by ring
    simpa [he1, he2] using hq

/-- C9: with an invalid configuration (`CANO_ALTURA_MAX ≤ CANO_ALTURA_MIN`)
session construction fails immediately: `Game.__init__` calls `reset`,
which builds the initial obstacle, whose `definir_altura` draw is over an
empty range — so the failure surfaces at construction, not at a later
obstacle spawn. -/
theorem C9_fail_fast (cfg : Config) (A : Assets) (seed : ℕ)
    (h : cfg.CANO_ALTURA_MAX ≤ cfg.CANO_ALTURA_MIN) :
    Cano.init cfg A 700 seed = none ∧ Game.reset cfg A seed = none ∧
    Game.init cfg A seed = none := by
  have hr : randrange cfg.CANO_ALTURA_MIN cfg.CANO_ALTURA_MAX seed = none := by
    unfold randrange
    rw [if_neg (by omega)]
  refine ⟨?_, ?_, ?_⟩ <;>
    simp [Game.init, Game.reset, Cano.init, Cano.definir_altura, hr]

/-- C9 witness at a concrete invalid configuration. -/
theorem C9_witness :
    cfgInvalida.CANO_ALTURA_MAX ≤ cfgInvalida.CANO_ALTURA_MIN ∧
    (Cano.init cfgInvalida assetsW 700 0 = none ∧
     Game.reset cfgInvalida assetsW 0 = none ∧
     Game.init cfgInvalida assetsW 0 = none) :=
  ⟨by decide, C9_fail_fast cfgInvalida assetsW 0 (by decide)⟩

/-- Marking an already-passed obstacle changes nothing. -/
lemma Cano.marcarPassou_eq_self {c : Cano} (h : c.passou = true) :
    Cano.marcarPassou c = c := by
  cases c
  simp only [Cano.marcarPassou]
  simp_all

/-- The inner body loop leaves every obstacle field except `passou`
unchanged, and sets `passou` exactly when some body in the snapshot is
beyond the obstacle. -/
lemma colisaoPassagem_cano (colidir : Cano → Passaro → Bool) (ps : List Passaro) :
    ∀ (passaros : List Passaro) (cano : Cano) (adic : Bool),
    (colisaoPassagem colidir ps passaros cano adic).2.1 =
      if cano.passou || ps.any (fun p => decide (p.x > cano.x)) then Cano.marcarPassou cano
      else cano := by
  induction ps with
  | nil =>
      intro passaros cano adic
      cases hc : cano.passou
      · simp [colisaoPassagem, hc]
      · simp [colisaoPassagem, hc, Cano.marcarPassou_eq_self hc]
  | cons p ps ih =>
      intro passaros cano adic
      simp only [colisaoPassagem]
      split
      case isTrue h =>
        rw [Bool.and_eq_true] at h
        obtain ⟨hc, hx⟩ := h
        have hc2 : cano.passou = false := by simpa using hc
        rw [ih]
        simp [Cano.marcarPassou, hc2, hx, List.any_cons]
      case isFalse h =>
        rw [ih]
        cases hc : cano.passou
        · rw [hc] at h
          simp only [Bool.not_false, Bool.true_and] at h
          have hx : decide (p.x > cano.x) = false := by
            cases hxx : decide (p.x > cano.x)
            · rfl
            · exact absurd hxx h
          simp [hc, hx, List.any_cons]
        · simp [hc]

/-- The `adicionar_cano` flag after the inner body loop: it was already
set, or the obstacle was unpassed and some body in the snapshot is beyond
it. -/
lemma colisaoPassagem_adic (colidir : Cano → Passaro → Bool) (ps : List Passaro) :
    ∀ (passaros : List Passaro) (cano : Cano) (adic : Bool),
    (colisaoPassagem colidir ps passaros cano adic).2.2 =
      (adic || (!cano.passou && ps.any (fun p => decide (p.x > cano.x)))) := by
  induction ps with
  | nil =>
      intro passaros cano adic
      simp [colisaoPassagem]
  | cons p ps ih =>
      intro passaros cano adic
      simp only [colisaoPassagem]
      split
      case isTrue h =>
        rw [Bool.and_eq_true] at h
        obtain ⟨hc, hx⟩ := h
        have hc2 : cano.passou = false := by simpa using hc
        rw [ih]
        simp [Cano.marcarPassou, hc2, hx, List.any_cons]
      case isFalse h =>
        rw [ih]
        cases hc : cano.passou
        · rw [hc] at h
          simp only [Bool.not_false, Bool.true_and] at h
          have hx : decide (p.x > cano.x) = false := by
            cases hxx : decide (p.x > cano.x)
            · rfl
            · exact absurd hxx h
          simp [hc, hx, List.any_cons]
        · simp [hc]

/-- The per-tick obstacle loop yields one processed obstacle per input
obstacle. -/
lemma processCanos_length (colidir : Cano → Passaro → Bool) (cfg : Config) (A : Assets) :
    ∀ (canos : List Cano) (passaros : List Passaro) (adic : Bool),
    (processCanos colidir cfg A canos passaros adic).1.length = canos.length := by
  intro canos
  induction canos with
  | nil => intro passaros adic; simp [processCanos]
  | cons cano resto ih => intro passaros adic; simp [processCanos, ih]

/-- A `passou` flag that is set stays set through the per-tick obstacle
loop (pairing obstacles positionally with their processed versions). -/
lemma processCanos_mono (colidir : Cano → Passaro → Bool) (cfg : Config) (A : Assets) :
    ∀ (canos : List Cano) (passaros : List Passaro) (adic : Bool),
    ∀ pr ∈ canos.zip ((processCanos colidir cfg A canos passaros adic).1.map Prod.fst),
      pr.1.passou = true → pr.2.passou = true := by
  intro canos
  induction canos with
  | nil => intro passaros adic pr hpr; simp [processCanos] at hpr
  | cons cano resto ih =>
      intro passaros adic pr hpr
      simp only [processCanos, List.map_cons, List.zip_cons_cons, List.mem_cons] at hpr
      rcases hpr with heq | hmem
      · subst heq
        intro hp
        have hp2 : cano.passou = true := hp
        show (Cano.mover cfg (colisaoPassagem colidir passaros passaros cano adic).2.1).passou = true
        rw [colisaoPassagem_cano, if_pos (by simp [hp2])]
        rfl
      · exact ih _ _ pr hmem

/-- The processed `passou` flag of the head obstacle: previous flag, or
some body in the snapshot beyond it. -/
lemma processCanos_head_passou (colidir : Cano → Passaro → Bool) (cfg : Config)
    (passaros : List Passaro) (cano : Cano) (adic : Bool) :
    (Cano.mover cfg (colisaoPassagem colidir passaros passaros cano adic).2.1).passou
      = (cano.passou || passaros.any (fun p => decide (p.x > cano.x))) := by
  have hmv : ∀ c : Cano, (Cano.mover cfg c).passou = c.passou := fun c => rfl
  rw [hmv, colisaoPassagem_cano]
  cases hb : (cano.passou || passaros.any (fun p => decide (p.x > cano.x)))
  · rw [if_neg (by simp [hb])]
    exact (Bool.or_eq_false_iff.mp hb).1
  · rw [if_pos (by simp [hb])]
    rfl

/-- Bookkeeping identity: unpassed obstacles after the loop plus the
false→true transitions of the loop equal the unpassed obstacles before. -/
lemma processCanos_count (colidir : Cano → Passaro → Bool) (cfg : Config) (A : Assets) :
    ∀ (canos : List Cano) (passaros : List Passaro) (adic : Bool),
    unpassedCount ((processCanos colidir cfg A canos passaros adic).1.map Prod.fst) +
      transCount canos ((processCanos colidir cfg A canos passaros adic).1.map Prod.fst) =
      unpassedCount canos := by
  intro canos
  induction canos with
  | nil => intro passaros adic; simp [processCanos, unpassedCount, transCount]
  | cons cano resto ih =>
      intro passaros adic
      have hpass := processCanos_head_passou colidir cfg passaros cano adic
      have hih := ih ((colisaoPassagem colidir passaros passaros cano adic).1)
        ((colisaoPassagem colidir passaros passaros cano adic).2.2)
      simp only [unpassedCount, transCount] at hih
      cases hcp : cano.passou <;>
        cases hany : passaros.any (fun p => decide (p.x > cano.x)) <;>
        · rw [hcp, hany] at hpass
          simp only [Bool.or_false, Bool.or_true, Bool.or_self] at hpass
          simp only [processCanos, List.map_cons, List.zip_cons_cons, unpassedCount,
            transCount, List.countP_cons, hpass, hcp, Bool.not_false, Bool.not_true,
            Bool.and_false, Bool.and_true, Bool.true_and, Bool.false_and,
            Bool.false_eq_true, Bool.true_eq_false, if_true, if_false]
          omega

/-- The `adicionar_cano` flag coming out of the obstacle loop is set iff it
was set on entry or some obstacle made a false→true `passou` transition. -/
lemma processCanos_adic (colidir : Cano → Passaro → Bool) (cfg : Config) (A : Assets) :
    ∀ (canos : List Cano) (passaros : List Passaro) (adic : Bool),
    ((processCanos colidir cfg A canos passaros adic).2.2 = true ↔
      (adic = true ∨
        1 ≤ transCount canos ((processCanos colidir cfg A canos passaros adic).1.map Prod.fst))) := by
  intro canos
  induction canos with
  | nil => intro passaros adic; simp [processCanos, transCount]
  | cons cano resto ih =>
      intro passaros adic
      have hpass := processCanos_head_passou colidir cfg passaros cano adic
      have hadic := colisaoPassagem_adic colidir passaros passaros cano adic
      cases hcp : cano.passou <;>
        cases hany : passaros.any (fun p => decide (p.x > cano.x))
      case false.false =>
        rw [hcp, hany] at hpass hadic
        simp only [Bool.or_false, Bool.not_false, Bool.true_and, Bool.and_false] at hpass hadic
        simp only [processCanos, List.map_cons, List.zip_cons_cons, transCount,
          List.countP_cons, hpass, hcp, Bool.not_false, Bool.and_false,
          if_neg Bool.false_ne_true]
        rw [hadic]
        have hih := ih ((colisaoPassagem colidir passaros passaros cano adic).1) adic
        simp only [transCount] at hih
        rw [Nat.add_zero]
        exact hih
      case false.true =>
        rw [hcp, hany] at hpass hadic
        simp only [Bool.or_true, Bool.not_false, Bool.true_and] at hpass hadic
        simp only [processCanos, List.map_cons, List.zip_cons_cons, transCount,
          List.countP_cons, hpass, hcp, Bool.not_false, Bool.and_true,
          Bool.false_eq_true, Bool.true_eq_false, if_true, if_false]
        rw [hadic]
        have hih := ih ((colisaoPassagem colidir passaros passaros cano adic).1) true
        simp only [transCount] at hih
        constructor
        · intro _
          right
          omega
        · intro _
          apply hih.mpr
          left
          trivial
      case true.false =>
        rw [hcp, hany] at hpass hadic
        simp only [Bool.or_false, Bool.not_true, Bool.false_and, Bool.or_self] at hpass hadic
        simp only [processCanos, List.map_cons, List.zip_cons_cons, transCount,
          List.countP_cons, hpass, hcp, Bool.not_true, Bool.false_and,
          if_neg Bool.false_ne_true]
        rw [hadic]
        have hih := ih ((colisaoPassagem colidir passaros passaros cano adic).1) adic
        simp only [transCount] at hih
        rw [Nat.add_zero]
        exact hih
      case true.true =>
        rw [hcp, hany] at hpass hadic
        simp only [Bool.or_true, Bool.not_true, Bool.false_and, Bool.or_false] at hpass hadic
        simp only [processCanos, List.map_cons, List.zip_cons_cons, transCount,
          List.countP_cons, hpass, hcp, Bool.not_true, Bool.false_and,
          if_neg Bool.false_ne_true]
        rw [hadic]
        have hih := ih ((colisaoPassagem colidir passaros passaros cano adic).1) adic
        simp only [transCount] at hih
        rw [Nat.add_zero]
        exact hih

/-- Projections of `montarEstado`. -/
lemma montarEstado_pontos (A : Assets) (chao : Chao) (r : Bool)
    (ps : List Passaro) (canos : List Cano) (pontos : ℕ) :
    (montarEstado A chao r ps canos pontos).pontos = pontos := rfl

/-- The obstacle list stored by `montarEstado`. -/
lemma montarEstado_canos (A : Assets) (chao : Chao) (r : Bool)
    (ps : List Passaro) (canos : List Cano) (pontos : ℕ) :
    (montarEstado A chao r ps canos pontos).canos = canos := rfl

/-- The body list stored by `montarEstado`. -/
lemma montarEstado_passaros (A : Assets) (chao : Chao) (r : Bool)
    (ps : List Passaro) (canos : List Cano) (pontos : ℕ) :
    (montarEstado A chao r ps canos pontos).passaros = filtrarChaoTeto A chao.y ps := rfl

/-- The run flag stored by `montarEstado`: cleared iff no body survived the
boundary filter. -/
lemma montarEstado_rodando (A : Assets) (chao : Chao) (r : Bool)
    (ps : List Passaro) (canos : List Cano) (pontos : ℕ) :
    (montarEstado A chao r ps canos pontos).rodando =
      if (montarEstado A chao r ps canos pontos).passaros.isEmpty then false else r := rfl

/-- Destructuring of a successful tick: either the `adicionar_cano` flag
was set (score bump, new obstacle appended after the reaped ones are
dropped) or it was not (score and list unchanged apart from reaping). -/
lemma atualizar_estado_cases {cfg : Config} {A : Assets} {colidir : Cano → Passaro → Bool}
    {seed : ℕ} {g g' : Game}
    (h : atualizar_estado cfg A colidir seed g = some g') :
    ((processCanos colidir cfg A g.canos (g.passaros.map (Passaro.mover cfg)) false).2.2 = true ∧
      ∃ novo, Cano.init cfg A (cfg.TELA_LARGURA + 100) seed = some novo ∧
        g' = montarEstado A (Chao.mover cfg g.chao) g.rodando
          (processCanos colidir cfg A g.canos (g.passaros.map (Passaro.mover cfg)) false).2.1
          ((((processCanos colidir cfg A g.canos (g.passaros.map (Passaro.mover cfg)) false).1.filter
              (fun pr => !pr.2)).map Prod.fst) ++ [novo]) (g.pontos + 1)) ∨
    ((processCanos colidir cfg A g.canos (g.passaros.map (Passaro.mover cfg)) false).2.2 = false ∧
      g' = montarEstado A (Chao.mover cfg g.chao) g.rodando
        (processCanos colidir cfg A g.canos (g.passaros.map (Passaro.mover cfg)) false).2.1
        (((processCanos colidir cfg A g.canos (g.passaros.map (Passaro.mover cfg)) false).1.filter
            (fun pr => !pr.2)).map Prod.fst) g.pontos) := by
  simp only [atualizar_estado] at h
  by_cases hb : (processCanos colidir cfg A g.canos (g.passaros.map (Passaro.mover cfg)) false).2.2
      = true
  · left
    refine ⟨hb, ?_⟩
    rw [if_pos hb, Option.map_eq_some'] at h
    obtain ⟨novo, hn, hg⟩ := h
    exact ⟨novo, hn, hg.symm⟩
  · right
    have hb2 : (processCanos colidir cfg A g.canos (g.passaros.map (Passaro.mover cfg)) false).2.2
        = false := by
      simpa using hb
    refine ⟨hb2, ?_⟩
    rw [if_neg hb, Option.some.injEq] at h
    exact h.symm

/-- C1: starting from any session state with at most one unpassed obstacle
— an invariant that `reset` establishes (last conjunct) and each tick
preserves (fourth conjunct) — one call of `atualizar_estado` never clears a
set `passou` flag (so each flag goes false→true at most once over the
obstacle's lifetime), at most one obstacle transitions in the tick even
when several active bodies cross it, and the session score increases by
exactly the number of transitions (exactly 1 per transition). -/
theorem C1_passou_transicao_pontua (cfg : Config) (A : Assets)
    (colidir : Cano → Passaro → Bool) (seed : ℕ) (g g' : Game)
    (hinv : unpassedCount g.canos ≤ 1)
    (hstep : atualizar_estado cfg A colidir seed g = some g') :
    (∀ pr ∈ g.canos.zip (procdCanos cfg A colidir g), pr.1.passou = true → pr.2.passou = true) ∧
    transCount g.canos (procdCanos cfg A colidir g) ≤ 1 ∧
    g'.pontos = g.pontos + transCount g.canos (procdCanos cfg A colidir g) ∧
    unpassedCount g'.canos ≤ 1 ∧
    (∀ g0 : Game, Game.reset cfg A seed = some g0 → unpassedCount g0.canos ≤ 1) := by
  have hproc : procdCanos cfg A colidir g =
      (processCanos colidir cfg A g.canos (g.passaros.map (Passaro.mover cfg)) false).1.map
        Prod.fst := rfl
  rw [hproc]
  have hmono := processCanos_mono colidir cfg A g.canos (g.passaros.map (Passaro.mover cfg)) false
  have hcount := processCanos_count colidir cfg A g.canos (g.passaros.map (Passaro.mover cfg)) false
  have hadic := processCanos_adic colidir cfg A g.canos (g.passaros.map (Passaro.mover cfg)) false
  have hreset : ∀ g0 : Game, Game.reset cfg A seed = some g0 → unpassedCount g0.canos ≤ 1 := by
    intro g0 h0
    unfold Game.reset at h0
    rw [Option.map_eq_some'] at h0
    obtain ⟨c, hcinit, hg0⟩ := h0
    rw [← hg0]
    cases hcp : c.passou <;> simp [unpassedCount, hcp]
  refine ⟨hmono, by omega, ?_, ?_, hreset⟩
  · rcases atualizar_estado_cases hstep with ⟨hb, novo, hn, hg⟩ | ⟨hb, hg⟩
    · have h1 : 1 ≤ transCount g.canos
          ((processCanos colidir cfg A g.canos (g.passaros.map (Passaro.mover cfg)) false).1.map
            Prod.fst) := by
        rcases hadic.mp hb with h | h
        · exact absurd h (by simp)
        · exact h
      rw [hg, montarEstado_pontos]
      omega
    · have h0 : transCount g.canos
          ((processCanos colidir cfg A g.canos (g.passaros.map (Passaro.mover cfg)) false).1.map
            Prod.fst) = 0 := by
        by_contra hne
        have h1 : (processCanos colidir cfg A g.canos
            (g.passaros.map (Passaro.mover cfg)) false).2.2 = true :=
          hadic.mpr (Or.inr (by omega))
        rw [h1] at hb
        exact absurd hb (by simp)
      rw [hg, montarEstado_pontos, h0, Nat.add_zero]
  · have hsub : unpassedCount
        (((processCanos colidir cfg A g.canos (g.passaros.map (Passaro.mover cfg)) false).1.filter
            (fun pr => !pr.2)).map Prod.fst) ≤
        unpassedCount
          ((processCanos colidir cfg A g.canos (g.passaros.map (Passaro.mover cfg)) false).1.map
            Prod.fst) := by
      unfold unpassedCount
      rw [List.countP_map, List.countP_map]
      exact List.Sublist.countP_le _ (List.filter_sublist _)
    rcases atualizar_estado_cases hstep with ⟨hb, novo, hn, hg⟩ | ⟨hb, hg⟩
    · have h1 : 1 ≤ transCount g.canos
          ((processCanos colidir cfg A g.canos (g.passaros.map (Passaro.mover cfg)) false).1.map
            Prod.fst) := by
        rcases hadic.mp hb with h | h
        · exact absurd h (by simp)
        · exact h
      have hnovo : novo.passou = false := (Cano.init_spec hn).2.1
      rw [hg, montarEstado_canos]
      have happ : unpassedCount
          ((((processCanos colidir cfg A g.canos (g.passaros.map (Passaro.mover cfg)) false).1.filter
              (fun pr => !pr.2)).map Prod.fst) ++ [novo]) =
          unpassedCount
            (((processCanos colidir cfg A g.canos (g.passaros.map (Passaro.mover cfg)) false).1.filter
                (fun pr => !pr.2)).map Prod.fst) + 1 := by
        unfold unpassedCount
        rw [List.countP_append]
        simp [hnovo]
      rw [happ]
      omega
    · rw [hg, montarEstado_canos]
      omega

/-- C1 witness: the reset state under a collision-free tick. -/
theorem C1_witness :
    unpassedCount gW.canos ≤ 1 ∧
    atualizar_estado CFG assetsW colidirNunca 0 gW = some gW1 ∧
    ((∀ pr ∈ gW.canos.zip (procdCanos CFG assetsW colidirNunca gW),
        pr.1.passou = true → pr.2.passou = true) ∧
     transCount gW.canos (procdCanos CFG assetsW colidirNunca gW) ≤ 1 ∧
     gW1.pontos = gW.pontos + transCount gW.canos (procdCanos CFG assetsW colidirNunca gW) ∧
     unpassedCount gW1.canos ≤ 1 ∧
     (∀ g0 : Game, Game.reset CFG assetsW 0 = some g0 → unpassedCount g0.canos ≤ 1)) :=
  ⟨by decide, by decide,
   C1_passou_transicao_pontua CFG assetsW colidirNunca 0 gW gW1 (by decide) (by decide)⟩

/-- C5 counterexample: processing a quit event turns the run flag off while
a body is still active, so the run state also becomes Over on an occasion
where the active-body sequence is nonempty. -/
theorem C5_counterexample :
    processar_eventos CFG assetsW 0 [Evento.quit] gW = some { gW with rodando := false } ∧
    ({ gW with rodando := false } : Game).rodando = false ∧
    gW.passaros ≠ [] :=
  ⟨rfl, rfl, by decide⟩

/-- C5 amended: within the tick update the run flag is cleared iff the
body list is empty after the tick (so Running→Over fires exactly the tick
the last body is removed); in addition, a quit event in the event queue
clears the run flag regardless of the bodies. -/
theorem C5_amended_rodando (cfg : Config) (A : Assets) (colidir : Cano → Passaro → Bool)
    (seed : ℕ) (g g' : Game) (hrun : g.rodando = true)
    (hstep : atualizar_estado cfg A colidir seed g = some g') :
    (g'.rodando = false ↔ g'.passaros = []) ∧
    (∀ h : Game, processar_eventos cfg A seed [Evento.quit] h =
      some { h with rodando := false }) := by
  constructor
  · have key : ∀ (chao : Chao) (ps : List Passaro) (canos : List Cano) (pontos : ℕ),
        ((montarEstado A chao g.rodando ps canos pontos).rodando = false ↔
          (montarEstado A chao g.rodando ps canos pontos).passaros = []) := by
      intro chao ps canos pontos
      rw [montarEstado_rodando, montarEstado_passaros, hrun]
      by_cases he : (filtrarChaoTeto A chao.y ps).isEmpty = true
      · rw [if_pos he]
        rw [List.isEmpty_iff] at he
        simp [he]
      · rw [if_neg he]
        constructor
        · intro hfalse
          exact absurd hfalse (by simp)
        · intro hnil
          exact absurd hnil (by simpa [List.isEmpty_iff] using he)
    rcases atualizar_estado_cases hstep with ⟨hb, novo, hn, hg⟩ | ⟨hb, hg⟩ <;>
      · rw [hg]
        exact key _ _ _ _
  · intro h
    rfl

/-- C5 amended, witness: a collision-free tick from the reset state. -/
theorem C5_witness :
    gW.rodando = true ∧
    atualizar_estado CFG assetsW colidirNunca 0 gW = some gW1 ∧
    ((gW1.rodando = false ↔ gW1.passaros = []) ∧
     (∀ h : Game, processar_eventos CFG assetsW 0 [Evento.quit] h =
        some { h with rodando := false })) :=
  ⟨by decide, by decide,
   C5_amended_rodando CFG assetsW colidirNunca 0 gW gW1 (by decide) (by decide)⟩

/-- C6: a processed reset request rebuilds the session exactly as
construction does: score 0, one body at the fixed spawn point (230, 350),
one obstacle at horizontal offset 700 (unpassed), run state Running — and
`Game.__init__` produces the very same state since it delegates to
`reset`. -/
theorem C6_reset_restaura (cfg : Config) (A : Assets) (seed : ℕ) (g' : Game)
    (h : Game.reset cfg A seed = some g') :
    g'.pontos = 0 ∧ g'.passaros = [Passaro.init 230 350] ∧
    (∃ c, g'.canos = [c] ∧ c.x = 700 ∧ c.passou = false) ∧
    g'.rodando = true ∧ Game.init cfg A seed = some g' := by
  have h2 := h
  unfold Game.reset at h2
  rw [Option.map_eq_some'] at h2
  obtain ⟨c, hcinit, hg⟩ := h2
  obtain ⟨hx, hpass, -, -, -, -⟩ := Cano.init_spec hcinit
  exact ⟨by rw [← hg], by rw [← hg], ⟨c, by rw [← hg], hx, hpass⟩, by rw [← hg], h⟩

/-- C6 witness at seed 0. -/
theorem C6_witness :
    Game.reset CFG assetsW 0 = some gW ∧
    (gW.pontos = 0 ∧ gW.passaros = [Passaro.init 230 350] ∧
     (∃ c, gW.canos = [c] ∧ c.x = 700 ∧ c.passou = false) ∧
     gW.rodando = true ∧ Game.init CFG assetsW 0 = some gW) :=
  ⟨by decide, C6_reset_restaura CFG assetsW 0 gW (by decide)⟩

/-- C10: in a tick where the only body collides with the only (unpassed)
obstacle while sitting beyond it horizontally, the body is removed from the
active set AND, in the same tick and same loop iteration, it still fires
the obstacle's `passou` transition and the score increment: the passed
check runs after the collision removal. -/
theorem C10_remocao_ainda_pontua (cfg : Config) (A : Assets)
    (colidir : Cano → Passaro → Bool) (seed : ℕ) (c : Cano) (p : Passaro) (g g' : Game)
    (hc : g.canos = [c]) (hp : g.passaros = [p]) (hpassou : c.passou = false)
    (hcol : colidir c (Passaro.mover cfg p) = true)
    (hx : p.x > c.x)
    (hstep : atualizar_estado cfg A colidir seed g = some g') :
    g'.passaros = [] ∧ g'.pontos = g.pontos + 1 ∧
    procdCanos cfg A colidir g = [Cano.mover cfg (Cano.marcarPassou c)] := by
  have hmx : (Passaro.mover cfg p).x = p.x := rfl
  have herase : List.eraseP (fun q => q.id == (Passaro.mover cfg p).id)
      [Passaro.mover cfg p] = [] := by
    simp [List.eraseP_cons]
  have hcond : (!c.passou && decide ((Passaro.mover cfg p).x > c.x)) = true := by
    rw [hpassou, hmx]
    simp [hx]
  have hcp : colisaoPassagem colidir [Passaro.mover cfg p] [Passaro.mover cfg p] c false =
      ([], Cano.marcarPassou c, true) := by
    simp only [colisaoPassagem, hcol, hcond, herase, if_true]
  have hmap : g.passaros.map (Passaro.mover cfg) = [Passaro.mover cfg p] := by
    rw [hp]
    rfl
  have hpcs : processCanos colidir cfg A g.canos (g.passaros.map (Passaro.mover cfg)) false =
      ([(Cano.mover cfg (Cano.marcarPassou c),
         decide ((Cano.mover cfg (Cano.marcarPassou c)).x + A.pipeWidth < 0))], [], true) := by
    rw [hc, hmap]
    simp only [processCanos, hcp]
  rcases atualizar_estado_cases hstep with ⟨hb, novo, hn, hg⟩ | ⟨hb, hg⟩
  · rw [hpcs] at hg
    refine ⟨?_, ?_, ?_⟩
    · rw [hg, montarEstado_passaros]
      rfl
    · rw [hg, montarEstado_pontos]
    · show (processCanos colidir cfg A g.canos (g.passaros.map (Passaro.mover cfg)) false).1.map
        Prod.fst = [Cano.mover cfg (Cano.marcarPassou c)]
      rw [hpcs]
      rfl
  · rw [hpcs] at hb
    exact absurd hb (by simp)

/-- C10 witness: concrete collision-and-pass tick. -/
theorem C10_witness :
    gX.canos = [canoX] ∧ gX.passaros = [passaroW] ∧ canoX.passou = false ∧
    colidirSempre canoX (Passaro.mover CFG passaroW) = true ∧
    passaroW.x > canoX.x ∧
    atualizar_estado CFG assetsW colidirSempre 0 gX = some gX1 ∧
    (gX1.passaros = [] ∧ gX1.pontos = gX.pontos + 1 ∧
     procdCanos CFG assetsW colidirSempre gX = [Cano.mover CFG (Cano.marcarPassou canoX)]) :=
  ⟨rfl, rfl, by decide, rfl, by decide, by decide,
   C10_remocao_ainda_pontua CFG assetsW colidirSempre 0 canoX passaroW gX gX1
     rfl rfl (by decide) rfl (by decide) (by decide)⟩
